import Mathlib

/-!
Shallow embedding of the lost-media catalog API (`src/views.py`, `src/models.py`).

Database tables are embedded as lists of row structures; Django ORM queryset
operations (filter / join / distinct / exclude / group-by / order-by) are
embedded as the corresponding list operations, and the two raw-SQL reporting
queries are embedded as explicit join-sort-truncate pipelines.
-/

namespace LostMedia

/-- Row of `Master_Shows` (`models.MasterShows`): primary key `show_id`,
`title`, nullable `release_year`. -/
structure MasterShowsRow where
  show_id : Nat
  title : String
  release_year : Option Int
deriving DecidableEq, Repr

/-- Row of `list_genre` (`models.ListGenre`). -/
structure ListGenreRow where
  genre_id : Nat
  genre_name : String
deriving DecidableEq, Repr

/-- Row of `Show_Genre_Mapping` (`models.ShowGenreMapping`): the show-genre
many-to-many link table, unique per (show, genre). -/
structure ShowGenreMappingRow where
  show_id : Nat
  genre_id : Nat
deriving DecidableEq, Repr

/-- Row of `Media_StatusLog` (`models.MediaStatusLog`): one-to-one with a show
(`show_id` is the primary key), `recovery_status` drawn from the choices
`Founded`, `Fully Lost`, `Partial Found`. -/
structure MediaStatusLogRow where
  show_id : Nat
  recovery_status : String
deriving DecidableEq, Repr

/-- Row of `MediaPopularity` (`models.MediaPopularity`): one-to-one with a show
(`id` is the primary key referencing `Show_ID`). -/
structure MediaPopularityRow where
  id : Nat
  search_count : Int
deriving DecidableEq, Repr

/-- The catalog side of the relational store. -/
structure CatalogDB where
  shows : List MasterShowsRow
  genres : List ListGenreRow
  mappings : List ShowGenreMappingRow
  statusLogs : List MediaStatusLogRow
  popularity : List MediaPopularityRow
deriving Repr

/-- ASCII lowercasing (Python `str.lower()` / the case folding of
case-insensitive SQL collation), written structurally over the character
list. -/
def strLower (s : String) : String := ⟨s.data.map Char.toLower⟩

/-- Django `icontains`: case-insensitive substring match. -/
def icontains (hay needle : String) : Bool :=
  (strLower hay).toList.tails.any (fun t =>
    (strLower needle).toList.isPrefixOf t)

/-- Query parameters of `GET /shows` read in `MasterShowsViewSet.get_queryset`
(`none` models an absent parameter). -/
structure ShowQueryParams where
  year_from : Option Int
  year_to : Option Int
  genre : Option String
  status : Option String
deriving Repr

namespace MasterShowsViewSet

/-- `queryset.filter(release_year__gte=year_from)`, applied only when the
parameter is present (`if year_from:`). A SQL NULL `release_year` never
satisfies the comparison. -/
def applyYearFrom (qs : List MasterShowsRow) (p : Option Int) : List MasterShowsRow :=
  match p with
  | none => qs
  | some y => qs.filter (fun s =>
      match s.release_year with
      | none => false
      | some ry => decide (y ≤ ry))

/-- `queryset.filter(release_year__lte=year_to)`, applied only when present. -/
def applyYearTo (qs : List MasterShowsRow) (p : Option Int) : List MasterShowsRow :=
  match p with
  | none => qs
  | some y => qs.filter (fun s =>
      match s.release_year with
      | none => false
      | some ry => decide (ry ≤ y))

/-- `queryset.filter(showgenremapping__genre__genre_name__icontains=genre).distinct()`:
the join with the mapping and genre tables yields one row per matching
(mapping, genre) pair, then `distinct()` deduplicates. Python truthiness skips
the filter for an empty string. -/
def applyGenre (db : CatalogDB) (qs : List MasterShowsRow) (p : Option String) :
    List MasterShowsRow :=
  match p with
  | none => qs
  | some g =>
    if g.isEmpty then qs
    else
      (qs.flatMap (fun s =>
        (db.mappings.filter (fun m => m.show_id == s.show_id)).flatMap (fun m =>
          (db.genres.filter (fun ge =>
              ge.genre_id == m.genre_id && icontains ge.genre_name g)).map
            (fun _ => s)))).dedup

/-- The `status` filter: `status=unknown` (case-insensitive) is
`queryset.exclude(show_id__in=MediaStatusLog.objects.values_list('show_id'))`;
any other non-empty value is the join filter
`queryset.filter(mediastatuslog__recovery_status=value)` (one row per matching
log; the log table is one-to-one with shows). -/
def applyStatus (db : CatalogDB) (qs : List MasterShowsRow) (p : Option String) :
    List MasterShowsRow :=
  match p with
  | none => qs
  | some v =>
    if v.isEmpty then qs
    else if strLower v == "unknown" then
      qs.filter (fun s => !(db.statusLogs.any (fun l => l.show_id == s.show_id)))
    else
      qs.flatMap (fun s =>
        (db.statusLogs.filter (fun l =>
            l.show_id == s.show_id && l.recovery_status == v)).map (fun _ => s))

/-- `MasterShowsViewSet.get_queryset`: year-range, genre and status filters
composed in source order. -/
def get_queryset (db : CatalogDB) (p : ShowQueryParams) : List MasterShowsRow :=
  applyStatus db
    (applyGenre db (applyYearTo (applyYearFrom db.shows p.year_from) p.year_to) p.genre)
    p.status

/-- Python's builtin `round` on exact rationals: round to the nearest integer,
resolving exact halves to the even neighbour (banker's rounding), as Python
does. -/
def roundHalfEven (q : ℚ) : ℤ :=
  if q - ⌊q⌋ = 1 / 2 then (if 2 ∣ ⌊q⌋ then ⌊q⌋ else ⌊q⌋ + 1)
  else round q

/-- Python `round(x, 2)` on exact rationals: round to two decimal places,
halves to even. -/
def round2 (q : ℚ) : ℚ := (roundHalfEven (q * 100) : ℤ) / 100

/-- One entry of the `status_distribution` list built by
`MasterShowsViewSet.stats`. The count is an `Int` because the synthetic
`Unknown/Lost` count is a Python subtraction that is not clamped at zero. -/
structure StatusBucket where
  status : String
  count : Int
  percentage : ℚ
deriving DecidableEq, Repr

/-- The grouping keys of
`MediaStatusLog.objects.values('recovery_status').annotate(count=Count('show_id'))`:
the distinct `recovery_status` values occurring in the log table. -/
def statusGroupValues (db : CatalogDB) : List String :=
  (db.statusLogs.map (fun l => l.recovery_status)).dedup

/-- The per-group count of the same GROUP BY query: the number of
`Media_StatusLog` rows carrying the given status. -/
def statusGroupCount (db : CatalogDB) (v : String) : Nat :=
  (db.statusLogs.filter (fun l => l.recovery_status == v)).length

/-- The `status_stats` list after the first loop of `stats`: one bucket per
stored status group, with `percentage = round(count / total_shows * 100, 2)`. -/
def storedStatusStats (db : CatalogDB) : List StatusBucket :=
  (statusGroupValues db).map (fun v =>
    ⟨v, (statusGroupCount db v : Int),
      round2 ((statusGroupCount db v : ℚ) / (db.shows.length : ℚ) * 100)⟩)

/-- `unknown_count = total_shows - sum(s['count'] for s in status_stats)`. -/
def unknown_count (db : CatalogDB) : Int :=
  (db.shows.length : Int) - ((storedStatusStats db).map (fun b => b.count)).sum

/-- The full `status_distribution` of `MasterShowsViewSet.stats`: the stored
buckets, plus a synthetic `Unknown/Lost` bucket appended when
`unknown_count > 0`. -/
def status_distribution (db : CatalogDB) : List StatusBucket :=
  if unknown_count db > 0 then
    storedStatusStats db ++
      [⟨"Unknown/Lost", unknown_count db,
        round2 ((unknown_count db : ℚ) / (db.shows.length : ℚ) * 100)⟩]
  else storedStatusStats db

/-- One entry of the `top_genres` list of `MasterShowsViewSet.stats`. -/
structure GenreStat where
  genre_name : String
  show_count : Nat
deriving DecidableEq, Repr

/-- The rows of the GROUP BY source of `top_genres`:
`ShowGenreMapping.objects.values('genre__genre_name')` — one genre name per
(mapping, genre) join row. -/
def genreNameRows (db : CatalogDB) : List String :=
  db.mappings.flatMap (fun m =>
    (db.genres.filter (fun ge => ge.genre_id == m.genre_id)).map
      (fun ge => ge.genre_name))

/-- The GROUP BY of `top_genres`: one `GenreStat` per distinct genre name,
annotated with `Count('show_id')` — the number of join rows in the group. -/
def genreGroups (db : CatalogDB) : List GenreStat :=
  (genreNameRows db).dedup.map (fun n =>
    ⟨n, ((genreNameRows db).filter (fun r => r == n)).length⟩)

/-- `top_genres`: the groups ordered by count descending (`-show_count`),
truncated to 10. -/
def top_genres (db : CatalogDB) : List GenreStat :=
  ((genreGroups db).mergeSort
    (fun a b => decide (b.show_count ≤ a.show_count))).take 10

/-- One row of the raw trending SQL
(`SELECT TOP n ms.Title, ms.ReleaseYear, mp.SearchCount ...`). -/
structure TrendingRow where
  title : String
  release_year : Option Int
  search_count : Int
deriving DecidableEq, Repr

/-- The inner join `Master_Shows JOIN MediaPopularity ON Show_ID = ID` of the
trending queries: one row per (show, popularity) match. -/
def trendingJoin (db : CatalogDB) : List TrendingRow :=
  db.shows.flatMap (fun s =>
    (db.popularity.filter (fun p => p.id == s.show_id)).map (fun p =>
      ⟨s.title, s.release_year, p.search_count⟩))

/-- `MasterShowsViewSet.trending`: the join ordered by `SearchCount DESC`,
truncated by `TOP 10`. -/
def trending (db : CatalogDB) : List TrendingRow :=
  ((trendingJoin db).mergeSort
    (fun a b => decide (b.search_count ≤ a.search_count))).take 10

/-- The `trending_media` component of `dashboard_stats`: the same query with
`TOP 5`. -/
def dashboardTrendingMedia (db : CatalogDB) : List TrendingRow :=
  ((trendingJoin db).mergeSort
    (fun a b => decide (b.search_count ≤ a.search_count))).take 5

end MasterShowsViewSet

/-- Response of `simple_search`: HTTP 400 with an error body, or HTTP 200 with
a count and the rows produced by the external search capability. -/
inductive SimpleSearchResponse (ρ : Type) where
  | badRequest (error : String)
  | ok (count : Nat) (results : List ρ)
deriving DecidableEq, Repr

/-- `simple_search`: `keyword = request.GET.get('q', '')`; an empty keyword
(absent parameter or empty string) is rejected with HTTP 400, otherwise the
external stored procedure `SP_Search_By_Keyword` (the parameter
`spSearchByKeyword`) is invoked and its rows are returned with their count. -/
def simple_search {ρ : Type} (spSearchByKeyword : String → List ρ)
    (q : Option String) : SimpleSearchResponse ρ :=
  let keyword := q.getD ""
  if keyword.isEmpty then
    .badRequest "Parameter \"q\" is required"
  else
    let results := spSearchByKeyword keyword
    .ok results.length results

/-- Row of `categories` (`models.Category`); `slug` is unique. -/
structure CategoryRow where
  id : Nat
  name : String
  slug : String
deriving DecidableEq, Repr

/-- Row of `articles` (`models.Article`): `status` is one of `draft`,
`published`, `archived`; `user_id` is the author; `show_id` is nullable. -/
structure ArticleRow where
  id : Nat
  title : String
  content : Option String
  status : String
  user_id : Nat
  category_id : Nat
  show_id : Option Nat
deriving DecidableEq, Repr

/-- The article side of the relational store. -/
structure ArticleDB where
  categories : List CategoryRow
  articles : List ArticleRow
deriving Repr

/-- The request principal: unauthenticated, or an authenticated user with the
name of their `Role` row (`request.user.role.name`). -/
inductive Caller where
  | anonymous
  | authenticated (userId : Nat) (roleName : String)
deriving DecidableEq, Repr

/-- Query parameters of `GET /articles` read in `ArticleViewSet.get_queryset`. -/
structure ArticleQueryParams where
  category : Option String
  show_id : Option Nat
deriving Repr

namespace ArticleViewSet

/-- The visibility predicate of `ArticleViewSet.get_queryset`: anonymous
callers see `status='published'`; a `Contributor` sees
`Q(status='published') | Q(user=request.user)`; any other non-`Admin` role
sees `status='published'`; an `Admin` is filtered by neither branch. -/
def visibleTo (c : Caller) (a : ArticleRow) : Bool :=
  match c with
  | .anonymous => a.status == "published"
  | .authenticated uid role =>
    if role == "Contributor" then a.status == "published" || a.user_id == uid
    else if role != "Admin" then a.status == "published"
    else true

/-- `ArticleViewSet.get_queryset`: the visibility filter, then the optional
`category__slug` join filter, then the optional `show_id` filter. -/
def get_queryset (db : ArticleDB) (c : Caller) (p : ArticleQueryParams) :
    List ArticleRow :=
  let qs := db.articles.filter (visibleTo c)
  let qs :=
    match p.category with
    | none => qs
    | some slug =>
      if slug.isEmpty then qs
      else qs.filter (fun a =>
        db.categories.any (fun cat => cat.id == a.category_id && cat.slug == slug))
  match p.show_id with
  | none => qs
  | some sid => qs.filter (fun a => a.show_id == some sid)

/-- Response of `ArticleViewSet.my_articles`: HTTP 401 for an anonymous
caller, otherwise the caller's own slice of `get_queryset`. -/
inductive MyArticlesResponse where
  | unauthorized (error : String)
  | ok (results : List ArticleRow)
deriving DecidableEq, Repr

/-- `ArticleViewSet.my_articles`: `get_queryset().filter(user=request.user)`
after the authentication check. -/
def my_articles (db : ArticleDB) (c : Caller) (p : ArticleQueryParams) :
    MyArticlesResponse :=
  match c with
  | .anonymous => .unauthorized "Authentication required"
  | .authenticated uid _ =>
    .ok ((get_queryset db c p).filter (fun a => a.user_id == uid))

/-- The validated body of an article create request. The serializer may or may
not admit a client-supplied `user` value; `user` carries it when present. -/
structure ArticleValidatedData where
  title : String
  content : Option String
  status : String
  category_id : Nat
  show_id : Option Nat
  user : Option Nat
deriving DecidableEq, Repr

/-- DRF `BaseSerializer.save(**kwargs)` merges
`validated_data = {**self.validated_data, **kwargs}`, keyword arguments taking
precedence over any client-supplied value for the same field. -/
def saveUserField (validatedUser : Option Nat) (kwargUser : Option Nat) :
    Option Nat :=
  match kwargUser with
  | some u => some u
  | none => validatedUser

/-- `ArticleViewSet.perform_create`: `serializer.save(user=self.request.user)`
— the stored row is built from the validated data with the `user` field forced
to the authenticated caller by the save keyword argument. The `getD 0`
fallback is unreachable because the keyword argument is always passed. -/
def perform_create (callerId : Nat) (d : ArticleValidatedData) (newId : Nat) :
    ArticleRow :=
  { id := newId
    title := d.title
    content := d.content
    status := d.status
    user_id := (saveUserField d.user (some callerId)).getD 0
    category_id := d.category_id
    show_id := d.show_id }

/-- An exception raised inside a handler. `permissionErrorBuiltin` is Python's
builtin `PermissionError` (an `OSError` subclass); `drfPermissionDenied` is
`rest_framework.exceptions.PermissionDenied` (an `APIException`). -/
inductive RaisedError where
  | permissionErrorBuiltin (msg : String)
  | drfPermissionDenied (msg : String)
deriving DecidableEq, Repr

/-- The HTTP status the framework produces for an exception escaping a DRF
handler: DRF's exception handler converts `APIException`s such as
`PermissionDenied` to their status code (403 here) but re-raises anything else
— including Python's builtin `PermissionError` — which Django surfaces as an
HTTP 500 server error. -/
def frameworkHttpStatus : RaisedError → Nat
  | .permissionErrorBuiltin _ => 500
  | .drfPermissionDenied _ => 403

/-- `ArticleViewSet.perform_update`: raises the builtin `PermissionError` when
the caller is neither the article's author nor an `Admin`, otherwise saves the
update (represented by its new title). -/
def perform_update (a : ArticleRow) (callerId : Nat) (callerRole : String)
    (newTitle : String) : Except RaisedError ArticleRow :=
  if a.user_id != callerId && callerRole != "Admin" then
    .error (.permissionErrorBuiltin "You do not have permission to edit this article")
  else
    .ok { a with title := newTitle }

end ArticleViewSet

namespace CategoryViewSet

/-- Response of `CategoryViewSet.articles`: HTTP 404 when the slug resolves to
no category (`get_object_or_404` semantics of `self.get_object()`), otherwise
the matching article rows. -/
inductive CategoryArticlesResponse where
  | notFound
  | ok (results : List ArticleRow)
deriving DecidableEq, Repr

/-- `CategoryViewSet.articles`: look the category up by slug, then
`Article.objects.filter(category=category, status='published')`. The caller is
a parameter of the handler but is never consulted. -/
def articles (db : ArticleDB) (c : Caller) (slug : String) :
    CategoryArticlesResponse :=
  match db.categories.find? (fun cat => cat.slug == slug) with
  | none => .notFound
  | some cat =>
    .ok (db.articles.filter (fun a =>
      a.category_id == cat.id && a.status == "published"))

end CategoryViewSet

/-- The quantity claim C4 says each `show_count` equals, written from the
claim's words for comparison with the code's aggregation: the number of
distinct shows linked through `Show_Genre_Mapping` to some genre carrying the
given name. -/
def distinctShowCountForGenreName (db : CatalogDB) (n : String) : Nat :=
  ((db.mappings.filter (fun m =>
      db.genres.any (fun ge => ge.genre_id == m.genre_id &&
        ge.genre_name == n))).map (fun m => m.show_id)).dedup.length

/-- Concrete catalog of claim C1's scenario: show 1 is linked to two genres,
one matching `comedy`, and has no status log; show 2 has a log. -/
def twoGenresNoLogDb : CatalogDB :=
  ⟨[⟨1, "Gone", none⟩, ⟨2, "Kept", none⟩],
   [⟨1, "Comedy"⟩, ⟨2, "Horror"⟩],
   [⟨1, 1⟩, ⟨1, 2⟩],
   [⟨2, "Founded"⟩],
   []⟩

/-- Concrete catalog of claim C2's scenario: 5 shows, two logged `Founded`,
one logged `Fully Lost`, two without a status log. -/
def fiveShowDb : CatalogDB :=
  ⟨[⟨1, "S1", none⟩, ⟨2, "S2", none⟩, ⟨3, "S3", none⟩, ⟨4, "S4", none⟩,
    ⟨5, "S5", none⟩],
   [], [],
   [⟨1, "Founded"⟩, ⟨2, "Founded"⟩, ⟨3, "Fully Lost"⟩],
   []⟩

/-- Concrete catalog refuting C2's ±0.01 bound: 32 shows, status-log counts
1 (`Founded`), 1 (`Fully Lost`), 29 (`Partial Found`) and one show without a
log, so every bucket's exact percentage (3.125, 3.125, 90.625, 3.125) ends in
.5 at the second decimal and Python's half-to-even rounding moves each one
down by 0.005. -/
def thirtyTwoShowDb : CatalogDB :=
  ⟨(List.range 32).map (fun i => ⟨i + 1, "S", none⟩),
   [], [],
   ⟨1, "Founded"⟩ :: ⟨2, "Fully Lost"⟩ ::
     (List.range 29).map (fun i => ⟨i + 3, "Partial Found"⟩),
   []⟩

/-- Concrete catalog refuting C4's distinct-show reading: two genre rows share
the name `Drama`, one show is linked to both, so the grouped row count is 2
while only one distinct show is linked to that name. -/
def dupGenreNameDb : CatalogDB :=
  ⟨[⟨1, "S1", none⟩],
   [⟨1, "Drama"⟩, ⟨2, "Drama"⟩],
   [⟨1, 1⟩, ⟨1, 2⟩],
   [], []⟩

/-- Concrete catalog for C4's witness: two genres with distinct names, the
`Drama` group holding two join rows. -/
def twoGenreDb : CatalogDB :=
  ⟨[⟨1, "S1", none⟩, ⟨2, "S2", none⟩],
   [⟨1, "Drama"⟩, ⟨2, "War"⟩],
   [⟨1, 1⟩, ⟨2, 1⟩, ⟨1, 2⟩],
   [], []⟩

/-! ## Theorems settling the claims -/

/-- C8: a `GET /search` request with `q` missing or empty is answered with
HTTP 400 (a `badRequest` body, never an `ok` with an empty list), and for any
non-empty `q` the external search capability is invoked and its rows returned
with their count. -/
theorem c8_simple_search_validation {ρ : Type} (sp : String → List ρ)
    (s : String) (hs : s ≠ "") :
    simple_search sp none = .badRequest "Parameter \"q\" is required" ∧
    simple_search sp (some "") = .badRequest "Parameter \"q\" is required" ∧
    simple_search sp (some s) = .ok (sp s).length (sp s) := by
  refine ⟨rfl, rfl, ?_⟩
  have hempty : s.isEmpty = false :=
    Bool.eq_false_iff.mpr (fun h => hs ((String.isEmpty_iff s).mp h))
  simp [simple_search, hempty]

/-- C8 witness: the theorem applied to a concrete capability and keyword. -/
theorem c8_witness :
    simple_search (fun k => [k]) (some "lupin") = .ok 1 ["lupin"] :=
  (c8_simple_search_validation (fun k => [k]) "lupin" (by decide)).2.2

/-- C9: the article stored by `perform_create` always has the authenticated
caller as author, whatever `user` value the request body supplied (or
omitted): the `save(user=request.user)` keyword argument overrides any
client-supplied field. -/
theorem c9_perform_create_stamps_author (callerId : Nat)
    (d : ArticleViewSet.ArticleValidatedData) (newId : Nat) :
    (ArticleViewSet.perform_create callerId d newId).user_id = callerId ∧
    ∀ clientUser : Nat,
      (ArticleViewSet.perform_create callerId
        { d with user := some clientUser } newId).user_id = callerId :=
  ⟨rfl, fun _ => rfl⟩

/-- C10: the per-category articles endpoint returns only `published` articles,
and its result does not depend on the caller at all — no role or ownership
widens visibility on this path. -/
theorem c10_category_articles_published_only (db : ArticleDB) (c c' : Caller)
    (slug : String) :
    (∀ res, CategoryViewSet.articles db c slug = .ok res →
      ∀ a ∈ res, a.status = "published") ∧
    CategoryViewSet.articles db c slug = CategoryViewSet.articles db c' slug := by
  constructor
  · intro res h a ha
    unfold CategoryViewSet.articles at h
    cases hfind : db.categories.find? (fun cat => cat.slug == slug) with
    | none => rw [hfind] at h; cases h
    | some cat =>
      rw [hfind] at h
      cases h
      simp only [List.mem_filter, Bool.and_eq_true, beq_iff_eq] at ha
      exact ha.2.2
  · rfl

/-- C10 witness: a concrete database with a draft and a published article in
the category; only the published one is returned, for any caller. -/
theorem c10_witness :
    (∀ a ∈ [(⟨21, "pub", none, "published", 7, 3, none⟩ : ArticleRow)],
        a.status = "published") := by
  have h := c10_category_articles_published_only
    ⟨[⟨3, "News", "news"⟩],
     [⟨20, "draft", none, "draft", 7, 3, none⟩,
      ⟨21, "pub", none, "published", 7, 3, none⟩]⟩
    (Caller.authenticated 7 "Admin") Caller.anonymous "news"
  exact h.1 [⟨21, "pub", none, "published", 7, 3, none⟩] (by decide)

/-- C5: when the caller is neither the article's author nor an Admin,
`perform_update` does reject the update, but by raising Python's builtin
`PermissionError`, which the framework surfaces as HTTP 500 — not the HTTP 403
the claim states. -/
theorem c5_perform_update_raises_500 (a : ArticleRow) (uid : Nat)
    (role : String) (t : String) (hOwn : a.user_id ≠ uid)
    (hRole : role ≠ "Admin") :
    ArticleViewSet.perform_update a uid role t =
      .error (.permissionErrorBuiltin
        "You do not have permission to edit this article") ∧
    ∀ e, ArticleViewSet.perform_update a uid role t = .error e →
      ArticleViewSet.frameworkHttpStatus e = 500 ∧
      ArticleViewSet.frameworkHttpStatus e ≠ 403 := by
  have hcond : (a.user_id != uid && role != "Admin") = true := by
    simp only [Bool.and_eq_true, bne_iff_ne]
    exact ⟨hOwn, hRole⟩
  unfold ArticleViewSet.perform_update
  rw [if_pos hcond]
  refine ⟨rfl, ?_⟩
  intro e he
  cases he
  exact ⟨rfl, by decide⟩

/-- C3: with referentially intact status logs, an empty show table leaves the
GROUP BY result empty — so the percentage computation (the only division) is
never reached — and the status distribution is empty. -/
theorem c3_stats_no_division_when_empty (db : CatalogDB)
    (hFK : ∀ l ∈ db.statusLogs, ∃ s ∈ db.shows, s.show_id = l.show_id)
    (h0 : db.shows.length = 0) :
    MasterShowsViewSet.statusGroupValues db = [] ∧
    MasterShowsViewSet.status_distribution db = [] := by
  have hshows : db.shows = [] := List.length_eq_zero.mp h0
  have hlogs : db.statusLogs = [] := by
    cases hl : db.statusLogs with
    | nil => rfl
    | cons l ls =>
      obtain ⟨s, hs, _⟩ := hFK l (by rw [hl]; exact List.mem_cons_self l ls)
      rw [hshows] at hs
      cases hs
  refine ⟨?_, ?_⟩
  · rw [MasterShowsViewSet.statusGroupValues, hlogs]
    rfl
  · simp [MasterShowsViewSet.status_distribution,
      MasterShowsViewSet.unknown_count, MasterShowsViewSet.storedStatusStats,
      MasterShowsViewSet.statusGroupValues, hlogs, h0]

/-- C3 witness: the empty database. -/
theorem c3_witness :
    MasterShowsViewSet.status_distribution ⟨[], [], [], [], []⟩ = [] :=
  (c3_stats_no_division_when_empty ⟨[], [], [], [], []⟩ (by simp) rfl).2

/-- The show listing with only `status=v` set, for an exact (non-`unknown`)
status value: the one-to-one join with the status-log table. -/
lemma get_queryset_status_only (db : CatalogDB) (v : String)
    (hv : ¬ v.isEmpty = true) (hvu : ¬ (strLower v == "unknown") = true) :
    MasterShowsViewSet.get_queryset db ⟨none, none, none, some v⟩ =
      db.shows.flatMap (fun s =>
        (db.statusLogs.filter (fun l =>
          l.show_id == s.show_id && l.recovery_status == v)).map (fun _ => s)) := by
  show MasterShowsViewSet.applyStatus db db.shows (some v) = _
  simp only [MasterShowsViewSet.applyStatus]
  rw [if_neg hv, if_neg hvu]

/-- The show listing with only `status=unknown` set: the exclusion of shows
possessing a status log. -/
lemma get_queryset_unknown (db : CatalogDB) :
    MasterShowsViewSet.get_queryset db ⟨none, none, none, some "unknown"⟩ =
      db.shows.filter (fun s =>
        !(db.statusLogs.any (fun l => l.show_id == s.show_id))) := by
  show MasterShowsViewSet.applyStatus db db.shows (some "unknown") = _
  simp only [MasterShowsViewSet.applyStatus]
  rw [if_neg (by decide), if_pos (by decide)]

/-- The show listing with `genre` and `status=unknown` set: the deduplicated
genre join, then the status-log exclusion. -/
lemma get_queryset_genre_unknown (db : CatalogDB) (g : String)
    (hg : ¬ g.isEmpty = true) :
    MasterShowsViewSet.get_queryset db ⟨none, none, some g, some "unknown"⟩ =
      (MasterShowsViewSet.applyGenre db db.shows (some g)).filter
        (fun s => !(db.statusLogs.any (fun l => l.show_id == s.show_id))) := by
  show MasterShowsViewSet.applyStatus db
    (MasterShowsViewSet.applyGenre db db.shows (some g)) (some "unknown") = _
  simp only [MasterShowsViewSet.applyStatus]
  rw [if_neg (by decide), if_pos (by decide)]

/-- Membership in the deduplicated genre-filtered queryset: the show is stored
and has a mapping to a genre whose name matches case-insensitively. -/
lemma mem_applyGenre {db : CatalogDB} {g : String} (hg : ¬ g.isEmpty = true)
    {s : MasterShowsRow} :
    s ∈ MasterShowsViewSet.applyGenre db db.shows (some g) ↔
      (s ∈ db.shows ∧ ∃ m ∈ db.mappings, m.show_id = s.show_id ∧
        ∃ ge ∈ db.genres, ge.genre_id = m.genre_id ∧
          icontains ge.genre_name g = true) := by
  simp only [MasterShowsViewSet.applyGenre, if_neg hg, List.mem_dedup,
    List.mem_flatMap, List.mem_map, List.mem_filter, Bool.and_eq_true,
    beq_iff_eq]
  constructor
  · rintro ⟨t, ht, m, ⟨⟨hm, hmid⟩, ge, ⟨⟨hge, hgeid, hic⟩, rfl⟩⟩⟩
    exact ⟨ht, m, hm, hmid, ge, hge, hgeid, hic⟩
  · rintro ⟨hs, m, hm, hmid, ge, hge, hgeid, hic⟩
    exact ⟨s, hs, m, ⟨⟨hm, hmid⟩, ge, ⟨⟨hge, hgeid, hic⟩, rfl⟩⟩⟩

/-- The deduplicated genre-filtered queryset has no duplicate rows. -/
lemma nodup_applyGenre (db : CatalogDB) (g : String) (hg : ¬ g.isEmpty = true) :
    (MasterShowsViewSet.applyGenre db db.shows (some g)).Nodup := by
  simp only [MasterShowsViewSet.applyGenre, if_neg hg]
  exact List.nodup_dedup _

/-- Summing a function that vanishes everywhere but at one member of a
duplicate-free list picks out that member's value. -/
lemma sum_map_eq_single {α : Type} (l : List α) (g : α → ℕ) (s : α)
    (hnd : l.Nodup) (hs : s ∈ l) (hzero : ∀ t ∈ l, t ≠ s → g t = 0) :
    (l.map g).sum = g s := by
  induction l with
  | nil => cases hs
  | cons a as ih =>
    rcases List.mem_cons.mp hs with rfl | hs'
    · simp only [List.map_cons, List.sum_cons]
      have hz : (as.map g).sum = 0 := List.sum_eq_zero (by
        intro x hx
        obtain ⟨t, ht, rfl⟩ := List.mem_map.mp hx
        exact hzero t (List.mem_cons_of_mem _ ht)
          (fun h => (List.nodup_cons.mp hnd).1 (h ▸ ht)))
      omega
    · have ha : a ≠ s := fun h => (List.nodup_cons.mp hnd).1 (h ▸ hs')
      simp only [List.map_cons, List.sum_cons,
        hzero a (List.mem_cons_self _ _) ha, Nat.zero_add]
      exact ih (List.nodup_cons.mp hnd).2 hs'
        (fun t ht h => hzero t (List.mem_cons_of_mem _ ht) h)

/-- Filtering a list with duplicate-free keys for the key of one of its
members yields exactly that member. -/
lemma filter_key_eq_single {α : Type} (f : α → ℕ) :
    ∀ (l : List α) (x : α), (l.map f).Nodup → x ∈ l →
      l.filter (fun t => f t == f x) = [x] := by
  intro l
  induction l with
  | nil => intro x _ hx; cases hx
  | cons a as ih =>
    intro x hnd hx
    simp only [List.map_cons, List.nodup_cons] at hnd
    rcases List.mem_cons.mp hx with rfl | hx'
    · rw [List.filter_cons_of_pos (by simp)]
      have hnil : as.filter (fun t => f t == f x) = [] :=
        List.filter_eq_nil_iff.mpr (by
          intro t ht
          simp only [beq_iff_eq]
          exact fun h => hnd.1 (h ▸ List.mem_map_of_mem f ht))
      rw [hnil]
    · have hfa : f a ≠ f x :=
        fun h => hnd.1 (h ▸ List.mem_map_of_mem f hx')
      rw [List.filter_cons_of_neg (by simp [hfa])]
      exact ih x hnd.2 hx'

/-- A countP over a duplicate-free list whose predicate singles out one member
equals one. -/
lemma countP_eq_one_of_nodup {α : Type} (l : List α) (p : α → Bool) (s : α)
    (hnd : l.Nodup) (hs : s ∈ l) (hps : p s = true)
    (huniq : ∀ t ∈ l, p t = true → t = s) : l.countP p = 1 := by
  rw [List.countP_eq_length_filter]
  have h1 : s ∈ l.filter p := List.mem_filter.mpr ⟨hs, hps⟩
  have h3 : (l.filter p).Nodup := hnd.filter p
  have hsub : l.filter p ⊆ [s] := by
    intro t ht
    have := huniq t (List.mem_filter.mp ht).1 (List.mem_filter.mp ht).2
    simp [this]
  have hle : (l.filter p).length ≤ 1 := by
    have := (List.subperm_of_subset h3 hsub).length_le
    simpa using this
  have hge : 0 < (l.filter p).length :=
    List.length_pos.mpr (List.ne_nil_of_mem h1)
  omega

/-- C1: the `status=unknown` filter is the set difference of all shows and the
shows holding a StatusLog — its result is exactly the stored shows without a
log; it is disjoint from every exact-status filter; over the three stored
status values plus `unknown` each stored show is listed exactly once; and a
show matching the `genre` filter and holding no log is returned exactly once
by `genre=...&status=unknown`. -/
theorem c1_unknown_status_filter (db : CatalogDB)
    (hpkShows : (db.shows.map (fun s => s.show_id)).Nodup)
    (hpkLogs : (db.statusLogs.map (fun l => l.show_id)).Nodup)
    (hStat : ∀ l ∈ db.statusLogs,
      l.recovery_status ∈ ["Founded", "Fully Lost", "Partial Found"]) :
    (∀ s : MasterShowsRow,
      s ∈ MasterShowsViewSet.get_queryset db ⟨none, none, none, some "unknown"⟩
        ↔ (s ∈ db.shows ∧ ∀ l ∈ db.statusLogs, l.show_id ≠ s.show_id)) ∧
    (∀ v : String, ¬ v.isEmpty = true → ¬ (strLower v == "unknown") = true →
      ∀ s ∈ MasterShowsViewSet.get_queryset db
          ⟨none, none, none, some "unknown"⟩,
        s ∉ MasterShowsViewSet.get_queryset db ⟨none, none, none, some v⟩) ∧
    (∀ s ∈ db.shows,
      (MasterShowsViewSet.get_queryset db ⟨none, none, none, some "Founded"⟩ ++
       MasterShowsViewSet.get_queryset db ⟨none, none, none, some "Fully Lost"⟩ ++
       MasterShowsViewSet.get_queryset db
         ⟨none, none, none, some "Partial Found"⟩ ++
       MasterShowsViewSet.get_queryset db
         ⟨none, none, none, some "unknown"⟩).countP
          (fun r => r.show_id == s.show_id) = 1) ∧
    (∀ g : String, ¬ g.isEmpty = true → ∀ s ∈ db.shows,
      (∃ m ∈ db.mappings, m.show_id = s.show_id ∧ ∃ ge ∈ db.genres,
        ge.genre_id = m.genre_id ∧ icontains ge.genre_name g = true) →
      (∀ l ∈ db.statusLogs, l.show_id ≠ s.show_id) →
      (MasterShowsViewSet.get_queryset db
          ⟨none, none, some g, some "unknown"⟩).countP
        (fun r => r.show_id == s.show_id) = 1) := by
  have hpart1 : ∀ s : MasterShowsRow,
      s ∈ MasterShowsViewSet.get_queryset db ⟨none, none, none, some "unknown"⟩
        ↔ (s ∈ db.shows ∧ ∀ l ∈ db.statusLogs, l.show_id ≠ s.show_id) := by
    intro s
    rw [get_queryset_unknown, List.mem_filter]
    simp only [Bool.not_eq_true', List.any_eq_false, beq_iff_eq, ne_eq]
  have hshowsNodup : db.shows.Nodup := List.Nodup.of_map _ hpkShows
  refine ⟨hpart1, ?_, ?_, ?_⟩
  · intro v hv hvu s hsU hsE
    rw [get_queryset_status_only db v hv hvu] at hsE
    obtain ⟨t, ht, hmem⟩ := List.mem_flatMap.mp hsE
    obtain ⟨l, hl, heq⟩ := List.mem_map.mp hmem
    have hts : t = s := heq
    subst hts
    have hl' := List.mem_filter.mp hl
    have hcond := hl'.2
    simp only [Bool.and_eq_true, beq_iff_eq] at hcond
    exact ((hpart1 t).mp hsU).2 l hl'.1 hcond.1
  · intro s hs
    rw [get_queryset_status_only db "Founded" (by decide) (by decide),
      get_queryset_status_only db "Fully Lost" (by decide) (by decide),
      get_queryset_status_only db "Partial Found" (by decide) (by decide),
      get_queryset_unknown db,
      List.countP_append, List.countP_append, List.countP_append]
    have hexact : ∀ v : String,
        (db.shows.flatMap (fun t => (db.statusLogs.filter (fun l =>
            l.show_id == t.show_id && l.recovery_status == v)).map
          (fun _ => t))).countP (fun r => r.show_id == s.show_id) =
        (db.statusLogs.filter (fun l =>
          l.show_id == s.show_id && l.recovery_status == v)).length := by
      intro v
      rw [List.countP_flatMap]
      have hfun : ∀ t ∈ db.shows,
          (List.countP (fun r => r.show_id == s.show_id) ∘
            (fun t => (db.statusLogs.filter (fun l =>
              l.show_id == t.show_id && l.recovery_status == v)).map
              (fun _ => t))) t =
          (fun t => if t.show_id = s.show_id then
            (db.statusLogs.filter (fun l =>
              l.show_id == t.show_id && l.recovery_status == v)).length
            else 0) t := by
        intro t _
        simp only [Function.comp]
        rw [List.countP_map]
        by_cases h : t.show_id = s.show_id
        · rw [if_pos h]
          have hconst : ((fun r => r.show_id == s.show_id) ∘
              (fun _ : MediaStatusLogRow => t)) = fun _ => true := by
            funext _
            simp [Function.comp, h]
          rw [hconst, List.countP_true]
        · rw [if_neg h]
          have hconst : ((fun r => r.show_id == s.show_id) ∘
              (fun _ : MediaStatusLogRow => t)) = fun _ => false := by
            funext _
            simp [Function.comp, h]
          rw [hconst, List.countP_false]
          rfl
      rw [List.map_congr_left hfun,
        sum_map_eq_single db.shows _ s hshowsNodup hs (by
          intro t ht htne
          exact if_neg (fun h =>
            htne (List.inj_on_of_nodup_map hpkShows ht hs h))),
        if_pos rfl]
    have hunknown : (db.shows.filter (fun t =>
        !(db.statusLogs.any (fun l => l.show_id == t.show_id)))).countP
          (fun r => r.show_id == s.show_id) =
        if db.statusLogs.any (fun l => l.show_id == s.show_id) then 0
        else 1 := by
      rw [List.countP_filter]
      by_cases hany : db.statusLogs.any (fun l => l.show_id == s.show_id)
      · rw [if_pos hany]
        rw [List.countP_eq_zero]
        intro t ht hpt
        simp only [Bool.and_eq_true, beq_iff_eq, Bool.not_eq_true'] at hpt
        rw [hpt.1] at hpt
        rw [hpt.2] at hany
        cases hany
      · rw [if_neg hany]
        have hanyf : db.statusLogs.any (fun l => l.show_id == s.show_id)
            = false := Bool.eq_false_iff.mpr hany
        apply countP_eq_one_of_nodup db.shows _ s hshowsNodup hs
        · simp [hanyf]
        · intro t ht hpt
          simp only [Bool.and_eq_true, beq_iff_eq] at hpt
          exact List.inj_on_of_nodup_map hpkShows ht hs hpt.1
    rw [hexact "Founded", hexact "Fully Lost", hexact "Partial Found",
      hunknown]
    by_cases hany : db.statusLogs.any (fun l => l.show_id == s.show_id)
    · rw [if_pos hany]
      obtain ⟨l0, hl0, hl0id⟩ := List.any_eq_true.mp hany
      have hid : l0.show_id = s.show_id := beq_iff_eq.mp hl0id
      have hsingle : db.statusLogs.filter (fun l => l.show_id == s.show_id)
          = [l0] := by
        have h := filter_key_eq_single (fun l => l.show_id) db.statusLogs l0
          hpkLogs hl0
        simpa only [hid] using h
      have hconj : ∀ v : String,
          db.statusLogs.filter (fun l =>
            l.show_id == s.show_id && l.recovery_status == v) =
          [l0].filter (fun l => l.recovery_status == v) := by
        intro v
        calc db.statusLogs.filter (fun l =>
              l.show_id == s.show_id && l.recovery_status == v)
            = db.statusLogs.filter (fun l =>
              l.recovery_status == v && l.show_id == s.show_id) :=
              List.filter_congr (fun t _ => by rw [Bool.and_comm])
          _ = (db.statusLogs.filter (fun l =>
              l.show_id == s.show_id)).filter
                (fun l => l.recovery_status == v) :=
              (List.filter_filter _ _).symm
          _ = [l0].filter (fun l => l.recovery_status == v) := by
              rw [hsingle]
      rw [hconj "Founded", hconj "Fully Lost", hconj "Partial Found"]
      have hmem3 : l0.recovery_status = "Founded" ∨
          l0.recovery_status = "Fully Lost" ∨
          l0.recovery_status = "Partial Found" := by
        simpa using hStat l0 hl0
      rcases hmem3 with h | h | h <;> simp [List.filter, h]
    · rw [if_neg hany]
      have hzero : ∀ v : String,
          (db.statusLogs.filter (fun l =>
            l.show_id == s.show_id && l.recovery_status == v)).length = 0 := by
        intro v
        rw [List.length_eq_zero, List.filter_eq_nil_iff]
        intro l hl hc
        rw [Bool.and_eq_true] at hc
        exact hany (List.any_eq_true.mpr ⟨l, hl, hc.1⟩)
      rw [hzero "Founded", hzero "Fully Lost", hzero "Partial Found"]
  · intro g hg s hs hgenre hnolog
    rw [get_queryset_genre_unknown db g hg]
    have hGnodup := nodup_applyGenre db g hg
    have hsG : s ∈ MasterShowsViewSet.applyGenre db db.shows (some g) :=
      (mem_applyGenre hg).mpr ⟨hs, hgenre⟩
    have hanyf : (db.statusLogs.any (fun l => l.show_id == s.show_id))
        = false := by
      rw [List.any_eq_false]
      intro l hl
      simp only [beq_iff_eq]
      exact hnolog l hl
    apply countP_eq_one_of_nodup _ _ s (hGnodup.filter _)
      (List.mem_filter.mpr ⟨hsG, by simp [hanyf]⟩)
    · simp
    · intro t ht hpt
      have htG := (List.mem_filter.mp ht).1
      have htshows := ((mem_applyGenre hg).mp htG).1
      exact List.inj_on_of_nodup_map hpkShows htshows hs (beq_iff_eq.mp hpt)

/-- C1 witness: in the two-genre scenario catalog,
`GET /shows?genre=comedy&status=unknown` returns show 1 exactly once. -/
theorem c1_witness :
    (MasterShowsViewSet.get_queryset twoGenresNoLogDb
        ⟨none, none, some "comedy", some "unknown"⟩).countP
      (fun r => r.show_id == 1) = 1 :=
  (c1_unknown_status_filter twoGenresNoLogDb (by decide) (by decide)
    (by decide)).2.2.2 "comedy" (by decide) ⟨1, "Gone", none⟩ (by decide)
    (by decide) (by decide)

/-- Half-to-even rounding moves a rational by at most 1/2. -/
lemma abs_sub_roundHalfEven (q : ℚ) :
    |((MasterShowsViewSet.roundHalfEven q : ℤ) : ℚ) - q| ≤ 1 / 2 := by
  rw [MasterShowsViewSet.roundHalfEven]
  split
  case isTrue h =>
    split
    case isTrue _ =>
      rw [abs_sub_comm, h, abs_of_nonneg (by norm_num)]
    case isFalse _ =>
      have h2 : ((⌊q⌋ + 1 : ℤ) : ℚ) - q = 1 / 2 := by
        push_cast
        linarith
      rw [h2, abs_of_nonneg (by norm_num)]
  case isFalse h =>
    rw [abs_sub_comm]
    exact abs_sub_round q

/-- Rounding to two decimals moves a rational by at most 1/200. -/
lemma abs_round2_sub (x : ℚ) :
    |MasterShowsViewSet.round2 x - x| ≤ 1 / 200 := by
  have h := abs_sub_roundHalfEven (x * 100)
  have h2 : MasterShowsViewSet.round2 x - x =
      (((MasterShowsViewSet.roundHalfEven (x * 100) : ℤ) : ℚ) - x * 100) /
        100 := by
    rw [MasterShowsViewSet.round2]
    ring
  rw [h2, abs_div, show |(100 : ℚ)| = 100 from by norm_num]
  linarith

/-- Rounding every element of a list to two decimals moves the sum by at most
`length / 200`. -/
lemma sum_map_round2_near (ds : List ℚ) :
    |(ds.map MasterShowsViewSet.round2).sum - ds.sum| ≤
      (ds.length : ℚ) * (1 / 200) := by
  induction ds with
  | nil => simp
  | cons d ds ih =>
    simp only [List.map_cons, List.sum_cons, List.length_cons]
    have h1 := abs_round2_sub d
    have h3 : |MasterShowsViewSet.round2 d + (ds.map MasterShowsViewSet.round2).sum
        - (d + ds.sum)| ≤
        |MasterShowsViewSet.round2 d - d| +
          |(ds.map MasterShowsViewSet.round2).sum - ds.sum| := by
      have := abs_add (MasterShowsViewSet.round2 d - d)
        ((ds.map MasterShowsViewSet.round2).sum - ds.sum)
      calc |MasterShowsViewSet.round2 d + (ds.map MasterShowsViewSet.round2).sum
          - (d + ds.sum)|
          = |(MasterShowsViewSet.round2 d - d) +
              ((ds.map MasterShowsViewSet.round2).sum - ds.sum)| := by ring_nf
        _ ≤ _ := this
    push_cast
    linarith

/-- The per-status group counts over the distinct stored statuses sum to the
number of status-log rows. -/
lemma sum_statusGroupCounts (db : CatalogDB) :
    ((MasterShowsViewSet.statusGroupValues db).map
      (fun v => MasterShowsViewSet.statusGroupCount db v)).sum =
    db.statusLogs.length := by
  have hcnt : ∀ v, MasterShowsViewSet.statusGroupCount db v =
      (db.statusLogs.map (fun l => l.recovery_status)).count v := by
    intro v
    rw [MasterShowsViewSet.statusGroupCount, List.count,
      List.countP_eq_length_filter, List.filter_map, List.length_map]
    rfl
  rw [MasterShowsViewSet.statusGroupValues,
    List.map_congr_left (fun v _ => hcnt v),
    List.sum_map_count_dedup_eq_length, List.length_map]

/-- The bucket counts of the stored status stats sum to the number of
status-log rows. -/
lemma sum_storedStatusStats_counts (db : CatalogDB) :
    ((MasterShowsViewSet.storedStatusStats db).map (fun b => b.count)).sum =
    (db.statusLogs.length : Int) := by
  rw [MasterShowsViewSet.storedStatusStats, List.map_map]
  have : ((fun b : MasterShowsViewSet.StatusBucket => b.count) ∘
      fun v => (⟨v, (MasterShowsViewSet.statusGroupCount db v : Int),
        MasterShowsViewSet.round2
          ((MasterShowsViewSet.statusGroupCount db v : ℚ) /
            (db.shows.length : ℚ) * 100)⟩ : MasterShowsViewSet.StatusBucket)) =
      fun v => ((MasterShowsViewSet.statusGroupCount db v : ℕ) : ℤ) := rfl
  rw [this, show (fun v => ((MasterShowsViewSet.statusGroupCount db v : ℕ) : ℤ))
      = (Nat.cast : ℕ → ℤ) ∘ (fun v => MasterShowsViewSet.statusGroupCount db v)
      from rfl,
    ← List.map_map, ← Nat.cast_list_sum, sum_statusGroupCounts]

/-- With unique log and show primary keys and referentially intact logs, there
are no more status-log rows than shows. -/
lemma statusLogs_length_le (db : CatalogDB)
    (hpkLogs : (db.statusLogs.map (fun l => l.show_id)).Nodup)
    (hFK : ∀ l ∈ db.statusLogs, ∃ s ∈ db.shows, s.show_id = l.show_id) :
    db.statusLogs.length ≤ db.shows.length := by
  have hsub : (db.statusLogs.map (fun l => l.show_id)) ⊆
      (db.shows.map (fun s => s.show_id)) := by
    intro x hx
    obtain ⟨l, hl, rfl⟩ := List.mem_map.mp hx
    obtain ⟨s, hs, hid⟩ := hFK l hl
    exact List.mem_map.mpr ⟨s, hs, hid⟩
  have := (List.subperm_of_subset hpkLogs hsub).length_le
  simpa using this

/-- With statuses drawn from the three stored choices, there are at most three
status groups. -/
lemma statusGroupValues_length_le (db : CatalogDB)
    (hStat : ∀ l ∈ db.statusLogs,
      l.recovery_status ∈ ["Founded", "Fully Lost", "Partial Found"]) :
    (MasterShowsViewSet.statusGroupValues db).length ≤ 3 := by
  have hsub : MasterShowsViewSet.statusGroupValues db ⊆
      ["Founded", "Fully Lost", "Partial Found"] := by
    intro v hv
    rw [MasterShowsViewSet.statusGroupValues] at hv
    obtain ⟨l, hl, rfl⟩ := List.mem_map.mp (List.mem_dedup.mp hv)
    exact hStat l hl
  exact (List.subperm_of_subset (List.nodup_dedup _) hsub).length_le

/-- Core bound for C2: under the schema invariants, the rounded percentages of
the status distribution sum to 100 up to 1/50 (i.e. 0.02). -/
lemma status_distribution_percentage_sum (db : CatalogDB)
    (hT : 0 < db.shows.length)
    (hpkLogs : (db.statusLogs.map (fun l => l.show_id)).Nodup)
    (hFK : ∀ l ∈ db.statusLogs, ∃ s ∈ db.shows, s.show_id = l.show_id)
    (hStat : ∀ l ∈ db.statusLogs,
      l.recovery_status ∈ ["Founded", "Fully Lost", "Partial Found"]) :
    |((MasterShowsViewSet.status_distribution db).map
        (fun b => b.percentage)).sum - 100| ≤ 1 / 50 := by
  have hT0 : ((db.shows.length : ℕ) : ℚ) ≠ 0 :=
    Nat.cast_ne_zero.mpr (Nat.pos_iff_ne_zero.mp hT)
  have hLT : db.statusLogs.length ≤ db.shows.length :=
    statusLogs_length_le db hpkLogs hFK
  have hV3 : (MasterShowsViewSet.statusGroupValues db).length ≤ 3 :=
    statusGroupValues_length_le db hStat
  have hcsum : ((MasterShowsViewSet.statusGroupValues db).map
      (fun v => (MasterShowsViewSet.statusGroupCount db v : ℚ))).sum =
      (db.statusLogs.length : ℚ) := by
    rw [show (fun v => ((MasterShowsViewSet.statusGroupCount db v : ℕ) : ℚ)) =
        (Nat.cast : ℕ → ℚ) ∘ (fun v => MasterShowsViewSet.statusGroupCount db v)
        from rfl,
      ← List.map_map, ← Nat.cast_list_sum, sum_statusGroupCounts]
  have hu : MasterShowsViewSet.unknown_count db =
      (db.shows.length : ℤ) - (db.statusLogs.length : ℤ) := by
    rw [MasterShowsViewSet.unknown_count, sum_storedStatusStats_counts]
  have hring : ∀ v ∈ MasterShowsViewSet.statusGroupValues db,
      (MasterShowsViewSet.statusGroupCount db v : ℚ) /
          (db.shows.length : ℚ) * 100 =
        (MasterShowsViewSet.statusGroupCount db v : ℚ) *
          (100 / (db.shows.length : ℚ)) := fun v _ => by ring
  by_cases hpos : MasterShowsViewSet.unknown_count db > 0
  · have hmap : (MasterShowsViewSet.status_distribution db).map
        (fun b => b.percentage) =
        (((MasterShowsViewSet.statusGroupValues db).map
            (fun v => (MasterShowsViewSet.statusGroupCount db v : ℚ) /
              (db.shows.length : ℚ) * 100)) ++
          [(MasterShowsViewSet.unknown_count db : ℚ) /
            (db.shows.length : ℚ) * 100]).map MasterShowsViewSet.round2 := by
      simp only [MasterShowsViewSet.status_distribution, if_pos hpos,
        MasterShowsViewSet.storedStatusStats, List.map_append, List.map_map,
        List.map_cons, List.map_nil]
      rfl
    have hlen : ((((MasterShowsViewSet.statusGroupValues db).map
        (fun v => (MasterShowsViewSet.statusGroupCount db v : ℚ) /
          (db.shows.length : ℚ) * 100)) ++
        [(MasterShowsViewSet.unknown_count db : ℚ) /
          (db.shows.length : ℚ) * 100]).length : ℚ) ≤ 4 := by
      simp only [List.length_append, List.length_map, List.length_cons,
        List.length_nil]
      push_cast
      have : ((MasterShowsViewSet.statusGroupValues db).length : ℚ) ≤ 3 := by
        exact_mod_cast hV3
      linarith
    have hsum : (((MasterShowsViewSet.statusGroupValues db).map
        (fun v => (MasterShowsViewSet.statusGroupCount db v : ℚ) /
          (db.shows.length : ℚ) * 100)) ++
        [(MasterShowsViewSet.unknown_count db : ℚ) /
          (db.shows.length : ℚ) * 100]).sum = 100 := by
      rw [List.sum_append, List.sum_cons, List.sum_nil,
        List.map_congr_left hring, List.sum_map_mul_right, hcsum]
      have h2 : ((MasterShowsViewSet.unknown_count db : ℤ) : ℚ) =
          (db.shows.length : ℚ) - (db.statusLogs.length : ℚ) := by
        rw [hu]
        push_cast
        ring
      rw [h2]
      field_simp
      ring
    rw [hmap]
    calc |((((MasterShowsViewSet.statusGroupValues db).map
          (fun v => (MasterShowsViewSet.statusGroupCount db v : ℚ) /
            (db.shows.length : ℚ) * 100)) ++
          [(MasterShowsViewSet.unknown_count db : ℚ) /
            (db.shows.length : ℚ) * 100]).map MasterShowsViewSet.round2).sum
          - 100|
        = |((((MasterShowsViewSet.statusGroupValues db).map
            (fun v => (MasterShowsViewSet.statusGroupCount db v : ℚ) /
              (db.shows.length : ℚ) * 100)) ++
            [(MasterShowsViewSet.unknown_count db : ℚ) /
              (db.shows.length : ℚ) * 100]).map MasterShowsViewSet.round2).sum
            - (((MasterShowsViewSet.statusGroupValues db).map
              (fun v => (MasterShowsViewSet.statusGroupCount db v : ℚ) /
                (db.shows.length : ℚ) * 100)) ++
              [(MasterShowsViewSet.unknown_count db : ℚ) /
                (db.shows.length : ℚ) * 100]).sum| := by rw [hsum]
      _ ≤ _ * (1 / 200) := sum_map_round2_near _
      _ ≤ 4 * (1 / 200) := by
          exact mul_le_mul_of_nonneg_right hlen (by norm_num)
      _ = 1 / 50 := by norm_num
  · have hmap : (MasterShowsViewSet.status_distribution db).map
        (fun b => b.percentage) =
        ((MasterShowsViewSet.statusGroupValues db).map
          (fun v => (MasterShowsViewSet.statusGroupCount db v : ℚ) /
            (db.shows.length : ℚ) * 100)).map MasterShowsViewSet.round2 := by
      simp only [MasterShowsViewSet.status_distribution, if_neg hpos,
        MasterShowsViewSet.storedStatusStats, List.map_map]
      rfl
    have hLeqT : ((db.statusLogs.length : ℕ) : ℚ) =
        ((db.shows.length : ℕ) : ℚ) := by
      rw [hu] at hpos
      have h1 : (db.shows.length : ℤ) ≤ (db.statusLogs.length : ℤ) := by
        linarith [not_lt.mp hpos]
      have h2 : (db.statusLogs.length : ℤ) ≤ (db.shows.length : ℤ) := by
        exact_mod_cast hLT
      have h3 : (db.statusLogs.length : ℤ) = (db.shows.length : ℤ) :=
        le_antisymm h2 h1
      exact_mod_cast h3
    have hlen : (((MasterShowsViewSet.statusGroupValues db).map
        (fun v => (MasterShowsViewSet.statusGroupCount db v : ℚ) /
          (db.shows.length : ℚ) * 100)).length : ℚ) ≤ 4 := by
      simp only [List.length_map]
      have : ((MasterShowsViewSet.statusGroupValues db).length : ℚ) ≤ 3 := by
        exact_mod_cast hV3
      linarith
    have hsum : ((MasterShowsViewSet.statusGroupValues db).map
        (fun v => (MasterShowsViewSet.statusGroupCount db v : ℚ) /
          (db.shows.length : ℚ) * 100)).sum = 100 := by
      rw [List.map_congr_left hring, List.sum_map_mul_right, hcsum, hLeqT]
      field_simp
    rw [hmap]
    calc |(((MasterShowsViewSet.statusGroupValues db).map
          (fun v => (MasterShowsViewSet.statusGroupCount db v : ℚ) /
            (db.shows.length : ℚ) * 100)).map MasterShowsViewSet.round2).sum
          - 100|
        = |(((MasterShowsViewSet.statusGroupValues db).map
            (fun v => (MasterShowsViewSet.statusGroupCount db v : ℚ) /
              (db.shows.length : ℚ) * 100)).map MasterShowsViewSet.round2).sum
            - ((MasterShowsViewSet.statusGroupValues db).map
              (fun v => (MasterShowsViewSet.statusGroupCount db v : ℚ) /
                (db.shows.length : ℚ) * 100)).sum| := by rw [hsum]
      _ ≤ _ * (1 / 200) := sum_map_round2_near _
      _ ≤ 4 * (1 / 200) := by
          exact mul_le_mul_of_nonneg_right hlen (by norm_num)
      _ = 1 / 50 := by norm_num

/-- C2 (amended): the stats distribution has one bucket per stored status with
the grouped count and `round(count/total*100, 2)`; the synthetic
`Unknown/Lost` bucket carrying `total - sum(counts)` is appended exactly when
that count is positive; the percentages over all buckets sum to 100 ± 0.02
(the claimed ±0.01 fails — see the counterexample); and the five-show
scenario yields Founded 2/40.0, Fully Lost 1/20.0, Unknown/Lost 2/40.0. -/
theorem c2_status_distribution_amended (db : CatalogDB)
    (hT : 0 < db.shows.length)
    (hpkLogs : (db.statusLogs.map (fun l => l.show_id)).Nodup)
    (hFK : ∀ l ∈ db.statusLogs, ∃ s ∈ db.shows, s.show_id = l.show_id)
    (hStat : ∀ l ∈ db.statusLogs,
      l.recovery_status ∈ ["Founded", "Fully Lost", "Partial Found"]) :
    (∀ v ∈ MasterShowsViewSet.statusGroupValues db,
      (⟨v, (MasterShowsViewSet.statusGroupCount db v : Int),
        MasterShowsViewSet.round2
          ((MasterShowsViewSet.statusGroupCount db v : ℚ) /
            (db.shows.length : ℚ) * 100)⟩ : MasterShowsViewSet.StatusBucket) ∈
        MasterShowsViewSet.status_distribution db) ∧
    (MasterShowsViewSet.unknown_count db > 0 →
      (⟨"Unknown/Lost", MasterShowsViewSet.unknown_count db,
        MasterShowsViewSet.round2
          ((MasterShowsViewSet.unknown_count db : ℚ) /
            (db.shows.length : ℚ) * 100)⟩ : MasterShowsViewSet.StatusBucket) ∈
        MasterShowsViewSet.status_distribution db) ∧
    (¬ MasterShowsViewSet.unknown_count db > 0 →
      MasterShowsViewSet.status_distribution db =
        MasterShowsViewSet.storedStatusStats db) ∧
    |((MasterShowsViewSet.status_distribution db).map
        (fun b => b.percentage)).sum - 100| ≤ 1 / 50 ∧
    MasterShowsViewSet.status_distribution fiveShowDb =
      [⟨"Founded", 2, 40⟩, ⟨"Fully Lost", 1, 20⟩, ⟨"Unknown/Lost", 2, 40⟩] := by
  refine ⟨?_, ?_, ?_,
    status_distribution_percentage_sum db hT hpkLogs hFK hStat, ?_⟩
  · intro v hv
    have hmem : (⟨v, (MasterShowsViewSet.statusGroupCount db v : Int),
        MasterShowsViewSet.round2
          ((MasterShowsViewSet.statusGroupCount db v : ℚ) /
            (db.shows.length : ℚ) * 100)⟩ : MasterShowsViewSet.StatusBucket) ∈
        MasterShowsViewSet.storedStatusStats db :=
      List.mem_map.mpr ⟨v, hv, rfl⟩
    rw [MasterShowsViewSet.status_distribution]
    split
    · exact List.mem_append_left _ hmem
    · exact hmem
  · intro h
    rw [MasterShowsViewSet.status_distribution, if_pos h]
    exact List.mem_append_right _ (by simp)
  · intro h
    rw [MasterShowsViewSet.status_distribution, if_neg h]
  · have hv : MasterShowsViewSet.statusGroupValues fiveShowDb =
        ["Founded", "Fully Lost"] := by decide
    have h1 : MasterShowsViewSet.statusGroupCount fiveShowDb "Founded" = 2 := by
      decide
    have h2 : MasterShowsViewSet.statusGroupCount fiveShowDb "Fully Lost" = 1 := by
      decide
    have hlen5 : fiveShowDb.shows.length = 5 := by decide
    have hstored : MasterShowsViewSet.storedStatusStats fiveShowDb =
        [⟨"Founded", 2, MasterShowsViewSet.round2 ((2 : ℚ) / 5 * 100)⟩,
         ⟨"Fully Lost", 1, MasterShowsViewSet.round2 ((1 : ℚ) / 5 * 100)⟩] := by
      rw [MasterShowsViewSet.storedStatusStats, hv]
      simp [h1, h2, hlen5]
    have hunk : MasterShowsViewSet.unknown_count fiveShowDb = 2 := by
      rw [MasterShowsViewSet.unknown_count, sum_storedStatusStats_counts]
      decide
    rw [MasterShowsViewSet.status_distribution, if_pos (by rw [hunk]; norm_num),
      hstored, hunk, hlen5]
    norm_num [MasterShowsViewSet.round2, MasterShowsViewSet.roundHalfEven,
      round_eq]

/-- C2 counterexample: a referentially intact 32-show state on which the
claim's premises hold but the rounded percentages (3.12, 3.12, 90.62, 3.12)
sum to 99.98, violating the stated ±0.01 tolerance. -/
theorem c2_counterexample :
    0 < thirtyTwoShowDb.shows.length ∧
    (thirtyTwoShowDb.statusLogs.map (fun l => l.show_id)).Nodup ∧
    (∀ l ∈ thirtyTwoShowDb.statusLogs, ∃ s ∈ thirtyTwoShowDb.shows,
      s.show_id = l.show_id) ∧
    ¬ (|((MasterShowsViewSet.status_distribution thirtyTwoShowDb).map
        (fun b => b.percentage)).sum - 100| ≤ 1 / 100) := by
  refine ⟨by decide, by decide, by decide, ?_⟩
  have hv : MasterShowsViewSet.statusGroupValues thirtyTwoShowDb =
      ["Founded", "Fully Lost", "Partial Found"] := by decide
  have h1 : MasterShowsViewSet.statusGroupCount thirtyTwoShowDb "Founded" = 1 := by
    decide
  have h2 : MasterShowsViewSet.statusGroupCount thirtyTwoShowDb "Fully Lost" = 1 := by
    decide
  have h3 : MasterShowsViewSet.statusGroupCount thirtyTwoShowDb
      "Partial Found" = 29 := by decide
  have hlen : thirtyTwoShowDb.shows.length = 32 := by decide
  have hstored : MasterShowsViewSet.storedStatusStats thirtyTwoShowDb =
      [⟨"Founded", 1, MasterShowsViewSet.round2 ((1 : ℚ) / 32 * 100)⟩,
       ⟨"Fully Lost", 1, MasterShowsViewSet.round2 ((1 : ℚ) / 32 * 100)⟩,
       ⟨"Partial Found", 29, MasterShowsViewSet.round2 ((29 : ℚ) / 32 * 100)⟩] := by
    rw [MasterShowsViewSet.storedStatusStats, hv]
    simp [h1, h2, h3, hlen]
  have hunk : MasterShowsViewSet.unknown_count thirtyTwoShowDb = 1 := by
    rw [MasterShowsViewSet.unknown_count, sum_storedStatusStats_counts]
    decide
  rw [MasterShowsViewSet.status_distribution, if_pos (by rw [hunk]; norm_num),
    hstored, hunk, hlen]
  norm_num [MasterShowsViewSet.round2, MasterShowsViewSet.roundHalfEven,
    round_eq]
  rw [show |(1 : ℚ) / 50| = 1 / 50 from abs_of_pos (by norm_num)]
  norm_num

/-- C2 witness: the amended theorem applied to the five-show scenario
database, whose schema invariants are discharged by computation. -/
theorem c2_witness :
    MasterShowsViewSet.status_distribution fiveShowDb =
      [⟨"Founded", 2, 40⟩, ⟨"Fully Lost", 1, 20⟩, ⟨"Unknown/Lost", 2, 40⟩] :=
  (c2_status_distribution_amended fiveShowDb (by decide) (by decide)
    (by decide) (by decide)).2.2.2.2

/-- Sorting any list of genre groups with the embedded comparison yields a
list that is pairwise non-increasing in `show_count`. -/
lemma pairwise_genreSort (l : List MasterShowsViewSet.GenreStat) :
    List.Pairwise (fun a b => b.show_count ≤ a.show_count)
      (l.mergeSort (fun a b => decide (b.show_count ≤ a.show_count))) := by
  have h := @List.sorted_mergeSort MasterShowsViewSet.GenreStat
    (fun a b => decide (b.show_count ≤ a.show_count))
    (fun a b c hab hbc => by
      rw [decide_eq_true_iff] at *
      exact le_trans hbc hab)
    (fun a b => by
      rcases le_total b.show_count a.show_count with h | h <;> simp [h])
    l
  exact h.imp (fun hab => of_decide_eq_true hab)

/-- C4 (amended): `top_genres` has at most 10 entries, sorted non-increasing
by `show_count`, and each entry's `show_count` is the number of
mapping-to-genre join rows carrying that genre name — `Count('show_id')`
counts group rows, not distinct shows. -/
theorem c4_top_genres_row_counts (db : CatalogDB) :
    (MasterShowsViewSet.top_genres db).length ≤ 10 ∧
    List.Pairwise (fun a b => b.show_count ≤ a.show_count)
      (MasterShowsViewSet.top_genres db) ∧
    ∀ e ∈ MasterShowsViewSet.top_genres db,
      e.genre_name ∈ MasterShowsViewSet.genreNameRows db ∧
      e.show_count = ((MasterShowsViewSet.genreNameRows db).filter
        (fun r => r == e.genre_name)).length := by
  refine ⟨List.length_take_le _ _,
    List.Pairwise.sublist (List.take_sublist _ _) (pairwise_genreSort _), ?_⟩
  intro e he
  have h1 := List.mem_mergeSort.mp
    ((List.take_sublist _ _).subset he)
  simp only [MasterShowsViewSet.genreGroups, List.mem_map] at h1
  obtain ⟨n, hn, rfl⟩ := h1
  exact ⟨List.mem_dedup.mp hn, rfl⟩

/-- C4 counterexample: with two genre rows named `Drama` linked to the same
single show, the `Drama` entry reports `show_count = 2` although only one
distinct show is linked to that name, refuting the claim as stated. -/
theorem c4_counterexample :
    MasterShowsViewSet.top_genres dupGenreNameDb = [⟨"Drama", 2⟩] ∧
    distinctShowCountForGenreName dupGenreNameDb "Drama" = 1 ∧
    (⟨"Drama", 2⟩ : MasterShowsViewSet.GenreStat).show_count ≠
      distinctShowCountForGenreName dupGenreNameDb "Drama" := by
  refine ⟨?_, by decide, by decide⟩
  rw [MasterShowsViewSet.top_genres,
    show MasterShowsViewSet.genreGroups dupGenreNameDb = [⟨"Drama", 2⟩]
      from by decide,
    List.mergeSort_singleton]
  rfl

/-- C4 witness: in a two-group catalog the `Drama` entry's count equals the
number of join rows named `Drama`. -/
theorem c4_witness :
    (⟨"Drama", 2⟩ : MasterShowsViewSet.GenreStat).show_count =
      ((MasterShowsViewSet.genreNameRows twoGenreDb).filter
        (fun r => r == "Drama")).length := by
  have hmem : (⟨"Drama", 2⟩ : MasterShowsViewSet.GenreStat) ∈
      MasterShowsViewSet.top_genres twoGenreDb := by
    rw [MasterShowsViewSet.top_genres,
      show MasterShowsViewSet.genreGroups twoGenreDb =
        [⟨"Drama", 2⟩, ⟨"War", 1⟩] from by decide,
      List.mergeSort_of_sorted (by decide)]
    decide
  exact ((c4_top_genres_row_counts twoGenreDb).2.2 ⟨"Drama", 2⟩ hmem).2

/-- Sorting any list of trending rows with the embedded comparison yields a
list that is pairwise non-increasing in `search_count`. -/
lemma pairwise_trendingSort (l : List MasterShowsViewSet.TrendingRow) :
    List.Pairwise (fun a b => b.search_count ≤ a.search_count)
      (l.mergeSort (fun a b => decide (b.search_count ≤ a.search_count))) := by
  have h := @List.sorted_mergeSort MasterShowsViewSet.TrendingRow
    (fun a b => decide (b.search_count ≤ a.search_count))
    (fun a b c hab hbc => by
      rw [decide_eq_true_iff] at *
      exact le_trans hbc hab)
    (fun a b => by
      rcases le_total b.search_count a.search_count with h | h <;> simp [h])
    l
  exact h.imp (fun hab => of_decide_eq_true hab)

/-- Membership characterization of the trending join: every row comes from a
show paired with its popularity counter. -/
lemma mem_trendingJoin {db : CatalogDB} {t : MasterShowsViewSet.TrendingRow} :
    t ∈ MasterShowsViewSet.trendingJoin db ↔
      ∃ s ∈ db.shows, ∃ pr ∈ db.popularity,
        pr.id = s.show_id ∧ t = ⟨s.title, s.release_year, pr.search_count⟩ := by
  simp only [MasterShowsViewSet.trendingJoin, List.mem_flatMap, List.mem_map,
    List.mem_filter, beq_iff_eq]
  constructor
  · rintro ⟨s, hs, pr, ⟨hpr, hid⟩, rfl⟩
    exact ⟨s, hs, pr, hpr, hid, rfl⟩
  · rintro ⟨s, hs, pr, hpr, hid, rfl⟩
    exact ⟨s, hs, pr, ⟨hpr, hid⟩, rfl⟩

/-- C7: the public trending list has at most 10 entries, the dashboard
trending list at most 5; both are sorted non-increasing by `search_count`, and
every entry comes from a show that has a `MediaPopularity` row. -/
theorem c7_trending_bounds (db : CatalogDB) :
    (MasterShowsViewSet.trending db).length ≤ 10 ∧
    (MasterShowsViewSet.dashboardTrendingMedia db).length ≤ 5 ∧
    List.Pairwise (fun a b => b.search_count ≤ a.search_count)
      (MasterShowsViewSet.trending db) ∧
    List.Pairwise (fun a b => b.search_count ≤ a.search_count)
      (MasterShowsViewSet.dashboardTrendingMedia db) ∧
    (∀ t ∈ MasterShowsViewSet.trending db, ∃ s ∈ db.shows,
      ∃ pr ∈ db.popularity, pr.id = s.show_id ∧
        t = ⟨s.title, s.release_year, pr.search_count⟩) ∧
    (∀ t ∈ MasterShowsViewSet.dashboardTrendingMedia db, ∃ s ∈ db.shows,
      ∃ pr ∈ db.popularity, pr.id = s.show_id ∧
        t = ⟨s.title, s.release_year, pr.search_count⟩) := by
  refine ⟨List.length_take_le _ _, List.length_take_le _ _,
    List.Pairwise.sublist (List.take_sublist _ _) (pairwise_trendingSort _),
    List.Pairwise.sublist (List.take_sublist _ _) (pairwise_trendingSort _),
    ?_, ?_⟩ <;>
  · intro t ht
    exact mem_trendingJoin.mp
      (List.mem_mergeSort.mp ((List.take_sublist _ _).subset ht))

/-- C7 witness: a concrete two-show catalog whose join is already sorted; the
top entry is certified to come from a popularity row. -/
theorem c7_witness :
    ∃ s ∈ [(⟨1, "A", none⟩ : MasterShowsRow), ⟨2, "B", none⟩],
      ∃ pr ∈ [(⟨1, 9⟩ : MediaPopularityRow), ⟨2, 5⟩],
        pr.id = s.show_id ∧
        (⟨"A", none, 9⟩ : MasterShowsViewSet.TrendingRow) =
          ⟨s.title, s.release_year, pr.search_count⟩ := by
  have hdb := c7_trending_bounds ⟨[⟨1, "A", none⟩, ⟨2, "B", none⟩], [], [], [],
    [⟨1, 9⟩, ⟨2, 5⟩]⟩
  refine hdb.2.2.2.2.1 ⟨"A", none, 9⟩ ?_
  unfold MasterShowsViewSet.trending
  rw [List.mergeSort_of_sorted (by decide)]
  decide

/-- The user-supplied category and show filters of the article listing only
narrow the visibility-filtered queryset: the result is a sublist of it. -/
lemma articles_get_queryset_sublist (db : ArticleDB) (c : Caller)
    (p : ArticleQueryParams) :
    (ArticleViewSet.get_queryset db c p).Sublist
      (db.articles.filter (ArticleViewSet.visibleTo c)) := by
  rcases p with ⟨pc, ps⟩
  unfold ArticleViewSet.get_queryset
  rcases pc with _ | slug <;> rcases ps with _ | sid <;> dsimp only
  · exact List.Sublist.refl _
  · exact List.filter_sublist _
  · split
    · exact List.Sublist.refl _
    · exact List.filter_sublist _
  · split
    · exact List.filter_sublist _
    · exact (List.filter_sublist _).trans (List.filter_sublist _)

/-- Every article returned by the listing is a stored article the caller may
see. -/
lemma visible_of_mem_get_queryset {db : ArticleDB} {c : Caller}
    {p : ArticleQueryParams} {a : ArticleRow}
    (h : a ∈ ArticleViewSet.get_queryset db c p) :
    a ∈ db.articles ∧ ArticleViewSet.visibleTo c a = true :=
  List.mem_filter.mp ((articles_get_queryset_sublist db c p).subset h)

/-- The visibility predicate for a Contributor: published or their own. -/
lemma visibleTo_contributor (u : Nat) (a : ArticleRow) :
    ArticleViewSet.visibleTo (.authenticated u "Contributor") a =
      (a.status == "published" || a.user_id == u) := by
  simp [ArticleViewSet.visibleTo]

/-- The visibility predicate for an Admin: everything. -/
lemma visibleTo_admin (u : Nat) (a : ArticleRow) :
    ArticleViewSet.visibleTo (.authenticated u "Admin") a = true := by
  simp [ArticleViewSet.visibleTo]

/-- C6: visibility is enforced under every combination of user-supplied
filters — an anonymous caller only ever sees published articles; a
Contributor sees published articles or their own; a Contributor's own article
(published or not) is in their `my_articles`; an unpublished article never
appears in a different Contributor's listing; an Admin's unfiltered listing is
the whole article table. -/
theorem c6_article_visibility (db : ArticleDB) (p : ArticleQueryParams) :
    (∀ a ∈ ArticleViewSet.get_queryset db .anonymous p,
      a.status = "published") ∧
    (∀ u : Nat, ∀ a ∈ ArticleViewSet.get_queryset db
        (.authenticated u "Contributor") p,
      a.status = "published" ∨ a.user_id = u) ∧
    (∀ u : Nat, ∀ a ∈ db.articles, a.user_id = u →
      ∃ res, ArticleViewSet.my_articles db (.authenticated u "Contributor")
          ⟨none, none⟩ = .ok res ∧ a ∈ res) ∧
    (∀ u u' : Nat, ∀ a ∈ db.articles, a.user_id = u →
      a.status ≠ "published" → u' ≠ u →
      a ∉ ArticleViewSet.get_queryset db (.authenticated u' "Contributor") p) ∧
    (∀ u : Nat, ArticleViewSet.get_queryset db (.authenticated u "Admin")
        ⟨none, none⟩ = db.articles) := by
  refine ⟨?_, ?_, ?_, ?_, ?_⟩
  · intro a ha
    have h := (visible_of_mem_get_queryset ha).2
    simpa [ArticleViewSet.visibleTo] using h
  · intro u a ha
    have h := (visible_of_mem_get_queryset ha).2
    rw [visibleTo_contributor] at h
    simpa using h
  · intro u a haa hu
    refine ⟨_, rfl, ?_⟩
    refine List.mem_filter.mpr ⟨List.mem_filter.mpr ⟨haa, ?_⟩, by simp [hu]⟩
    rw [visibleTo_contributor]
    simp [hu]
  · intro u u' a haa hu hpub hne hmem
    have h := (visible_of_mem_get_queryset hmem).2
    rw [visibleTo_contributor] at h
    simp only [Bool.or_eq_true, beq_iff_eq] at h
    rcases h with h | h
    · exact hpub h
    · exact hne (h ▸ hu)
  · intro u
    calc ArticleViewSet.get_queryset db (.authenticated u "Admin") ⟨none, none⟩
        = db.articles.filter
            (ArticleViewSet.visibleTo (.authenticated u "Admin")) := rfl
      _ = db.articles.filter (fun _ => true) :=
          List.filter_congr (fun x _ => visibleTo_admin u x)
      _ = db.articles := List.filter_true _

/-- C6 witness: in a concrete two-article table, user 5's draft article is
absent from another Contributor's listing. -/
theorem c6_witness :
    (⟨1, "a", none, "draft", 5, 1, none⟩ : ArticleRow) ∉
      ArticleViewSet.get_queryset
        ⟨[], [⟨1, "a", none, "draft", 5, 1, none⟩,
              ⟨2, "b", none, "published", 6, 1, none⟩]⟩
        (.authenticated 7 "Contributor") ⟨none, none⟩ :=
  (c6_article_visibility
    ⟨[], [⟨1, "a", none, "draft", 5, 1, none⟩,
          ⟨2, "b", none, "published", 6, 1, none⟩]⟩
    ⟨none, none⟩).2.2.2.1 5 7 ⟨1, "a", none, "draft", 5, 1, none⟩
    (by decide) rfl (by decide) (by decide)

/-- C5 witness: a contributor (id 2) who does not own article 9 (authored by
user 1) gets the builtin `PermissionError`, mapped by the framework to 500. -/
theorem c5_witness :
    ArticleViewSet.perform_update ⟨9, "t", none, "published", 1, 3, none⟩ 2
      "Contributor" "new title" =
    .error (.permissionErrorBuiltin
      "You do not have permission to edit this article") :=
  (c5_perform_update_raises_500 ⟨9, "t", none, "published", 1, 3, none⟩ 2
    "Contributor" "new title" (by decide) (by decide)).1

end LostMedia
